import Mathlib

/-!
Verification of the SEIRS epidemic-model engine.

The numerical engine is embedded shallowly over the rationals `ℚ`:
every arithmetic expression is translated term-for-term from the source
(`src/seirs.js`, which carries two copies of the solver, and the third copy
in `src/unnamed/part_000`).  The JavaScript `Float64Array` state is modelled
as a trajectory function `ℕ → CompartmentState`; storing `state[ix+1]`
from `state[ix]` becomes structural recursion on the day index.  Thrown
validation errors become `Except String` results.  The simulated day count
`n` is modelled as a natural number (the source allocates `Float64Array(n+1)`,
which requires an integral `n`, so `n ≤ 0` means `n = 0`).
-/

namespace Seirs

/-- CONSTANTS.DAYS_PER_YEAR from src/seirs.js. -/
def DAYS_PER_YEAR : ℚ := 365

/-- CONSTANTS.PERCENTAGE_SCALE from src/seirs.js. -/
def PERCENTAGE_SCALE : ℚ := 100

/-- CONSTANTS.RK4.WEIGHT_MIDDLE from src/seirs.js. -/
def WEIGHT_MIDDLE : ℚ := 2

/-- CONSTANTS.RK4.WEIGHT_DIVISOR from src/seirs.js. -/
def WEIGHT_DIVISOR : ℚ := 6

/-- CONSTANTS.RK4.HALF_STEP from src/seirs.js. -/
def HALF_STEP : ℚ := 0.5

/-- The clamp utility of src/seirs.js line 45:
`(value, min = 0, max = 1) => Math.max(min, Math.min(max, value))`.
The default bounds 0 and 1 are passed explicitly at every call site. -/
def clamp (value lo hi : ℚ) : ℚ := max lo (min hi value)

/-- One (x, y) point of a plotted series: x is the day index, y the
percentage value. -/
structure PlotPoint where
  x : ℕ
  y : ℚ
deriving DecidableEq, Repr

/-- formatDataForPlot of src/seirs.js lines 47-52: pairs each array value
with its index and scales it.  The `scale` argument defaults to
`CONSTANTS.PERCENTAGE_SCALE` in the source and is passed explicitly here. -/
def formatDataForPlot (array : List ℚ) (scale : ℚ) : List PlotPoint :=
  array.enum.map fun q => ⟨q.1, scale * q.2⟩

/-- The six derived rate constants (fields of the SEIRParameters class). -/
structure SEIRParameters where
  alpha : ℚ
  gamma : ℚ
  omega : ℚ
  mu : ℚ
  sigma : ℚ
  beta : ℚ
deriving DecidableEq, Repr

/-- The SEIRParameters constructor, src/seirs.js lines 58-69. -/
def mkSEIRParameters (R0 infectious_period latent_period death_onset
    immunity_duration life_expectancy : ℚ) : SEIRParameters :=
  let alpha := if 0 < death_onset then 1 / death_onset else 0
  let gamma := 1 / infectious_period
  let omega := 1 / (DAYS_PER_YEAR * immunity_duration)
  let mu := 1 / (DAYS_PER_YEAR * life_expectancy)
  let sigma := 1 / latent_period
  ⟨alpha, gamma, omega, mu, sigma,
    R0 * (gamma + mu + alpha) * (sigma + mu) / sigma⟩

/-- The four instantaneous derivatives (ds, de, di, dr). -/
structure Derivatives where
  ds : ℚ
  de : ℚ
  di : ℚ
  dr : ℚ
deriving DecidableEq, Repr

/-- The four compartment proportions (s, e, i, r). -/
structure CompartmentState where
  s : ℚ
  e : ℚ
  i : ℚ
  r : ℚ
deriving DecidableEq, Repr

/-- SEIRTransitions.calculateDerivatives, src/seirs.js lines 77-92.
The class fields `params` and `vaccination_rate` are passed as arguments. -/
def calculateDerivatives (params : SEIRParameters) (vaccination_rate : ℚ)
    (s e i r : ℚ) : Derivatives :=
  let p := vaccination_rate
  let s_to_e := params.beta * s * i
  let e_to_i := params.sigma * e
  let i_to_r := params.gamma * i
  let r_to_s := params.omega * r
  ⟨-s_to_e + r_to_s - params.mu * s + params.mu * (1 - p),
   s_to_e - e_to_i - params.mu * e,
   e_to_i - i_to_r - (params.mu + params.alpha) * i,
   i_to_r - r_to_s - params.mu * r + params.mu * p⟩

/-- RK4Integrator.step, src/seirs.js lines 100-136. -/
def step (params : SEIRParameters) (vaccination_rate : ℚ)
    (state : CompartmentState) (h : ℚ) : CompartmentState :=
  let s := state.s
  let e := state.e
  let i := state.i
  let r := state.r
  let k1 := calculateDerivatives params vaccination_rate s e i r
  let k2 := calculateDerivatives params vaccination_rate
    (s + HALF_STEP * h * k1.ds) (e + HALF_STEP * h * k1.de)
    (i + HALF_STEP * h * k1.di) (r + HALF_STEP * h * k1.dr)
  let k3 := calculateDerivatives params vaccination_rate
    (s + HALF_STEP * h * k2.ds) (e + HALF_STEP * h * k2.de)
    (i + HALF_STEP * h * k2.di) (r + HALF_STEP * h * k2.dr)
  let k4 := calculateDerivatives params vaccination_rate
    (s + h * k3.ds) (e + h * k3.de) (i + h * k3.di) (r + h * k3.dr)
  let weightedSum := fun a b c d =>
    (h / WEIGHT_DIVISOR) * (a + WEIGHT_MIDDLE * b + WEIGHT_MIDDLE * c + d)
  ⟨s + weightedSum k1.ds k2.ds k3.ds k4.ds,
   e + weightedSum k1.de k2.de k3.de k4.de,
   i + weightedSum k1.di k2.di k3.di k4.di,
   r + weightedSum k1.dr k2.dr k3.dr k4.dr⟩

/-- Component-wise clamping to [0, 1] applied at lines 194-197 of
src/seirs.js before the new state is stored. -/
def clampState (st : CompartmentState) : CompartmentState :=
  ⟨clamp st.s 0 1, clamp st.e 0 1, clamp st.i 0 1, clamp st.r 0 1⟩

/-- The stored trajectory: `stateAt params p init t` is the value of
`[state.s[t], state.e[t], state.i[t], state.r[t]]` after the integration
loop of src/seirs.js lines 186-198 (timeStep = 1.0), started from `init`. -/
def stateAt (params : SEIRParameters) (vaccination_rate : ℚ)
    (init : CompartmentState) : ℕ → CompartmentState
  | 0 => init
  | t + 1 => clampState (step params vaccination_rate
      (stateAt params vaccination_rate init t) 1)

/-- The record returned by solve: four series plus the y-axis scale. -/
structure SolveOutput where
  s : List PlotPoint
  e : List PlotPoint
  i : List PlotPoint
  r : List PlotPoint
  ymax : ℚ
deriving DecidableEq, Repr

/-- The computation performed by solve after validation succeeds,
src/seirs.js lines 165-206: initial conditions, parameter derivation,
the RK4 loop with clamping, and output formatting. -/
def solveCore (S0 R0 latent_period infectious_period : ℚ) (n : ℕ)
    (death_onset immunity_duration life_expectancy vaccination_rate : ℚ) :
    SolveOutput :=
  let init : CompartmentState :=
    ⟨S0 - vaccination_rate, 1 - S0, 0, vaccination_rate⟩
  let params := mkSEIRParameters R0 infectious_period latent_period
    death_onset immunity_duration life_expectancy
  let traj := stateAt params vaccination_rate init
  ⟨formatDataForPlot ((List.range (n + 1)).map fun t => (traj t).s) PERCENTAGE_SCALE,
   formatDataForPlot ((List.range (n + 1)).map fun t => (traj t).e) PERCENTAGE_SCALE,
   formatDataForPlot ((List.range (n + 1)).map fun t => (traj t).i) PERCENTAGE_SCALE,
   formatDataForPlot ((List.range (n + 1)).map fun t => (traj t).r) PERCENTAGE_SCALE,
   PERCENTAGE_SCALE⟩

/-- solve, src/seirs.js lines 143-207 (class-based copy).  The validation
sequence of lines 154-163 is mirrored check by check, in order; a thrown
Error becomes an `Except.error` carrying the message. -/
def solve (S0 R0 latent_period infectious_period : ℚ) (n : ℕ)
    (death_onset immunity_duration life_expectancy vaccination_rate : ℚ) :
    Except String SolveOutput :=
  if n ≤ 0 then .error "Number of time steps must be positive"
  else if S0 < 0 ∨ 1 < S0 then .error "Initial susceptibility must be between 0 and 1"
  else if R0 ≤ 0 then .error "R0 must be positive"
  else if infectious_period ≤ 0 then .error "Infectious period must be positive"
  else if latent_period ≤ 0 then .error "Latent period must be positive"
  else if immunity_duration ≤ 0 then .error "Immunity duration must be positive"
  else if life_expectancy ≤ 0 then .error "Life expectancy must be positive"
  else if death_onset < 0 then .error "Death onset must be non-negative"
  else if vaccination_rate < 0 ∨ 1 < vaccination_rate then .error "Vaccination rate must be between 0 and 1"
  else .ok (solveCore S0 R0 latent_period infectious_period n
    death_onset immunity_duration life_expectancy vaccination_rate)

/-- The condition under which every validation check of solve passes. -/
abbrev validParams (S0 R0 latent_period infectious_period : ℚ) (n : ℕ)
    (death_onset immunity_duration life_expectancy vaccination_rate : ℚ) :
    Prop :=
  0 < n ∧ 0 ≤ S0 ∧ S0 ≤ 1 ∧ 0 < R0 ∧ 0 < infectious_period ∧
    0 < latent_period ∧ 0 < immunity_duration ∧ 0 < life_expectancy ∧
    0 ≤ death_onset ∧ 0 ≤ vaccination_rate ∧ vaccination_rate ≤ 1

end Seirs

namespace Inline

/-!
The second copy of the solver in src/seirs.js (lines 485-609) writes the
same computation inline: rate constants as local bindings, the ten flow
functions as local closures over them, `rk4_step` as a local function on a
4-tuple `[s, e, i, r]`, and explicit `Math.max(0, Math.min(1, ·))` clamping.
Each local closure becomes a top-level function taking the rate constants
it captures as leading arguments.
-/

/-- s_to_e closure, src/seirs.js line 519. -/
def s_to_e (beta s e i r : ℚ) : ℚ := beta * s * i

/-- e_to_i closure, src/seirs.js line 520. -/
def e_to_i (sigma s e i r : ℚ) : ℚ := sigma * e

/-- i_to_r closure, src/seirs.js line 521. -/
def i_to_r (gamma s e i r : ℚ) : ℚ := gamma * i

/-- r_to_s closure, src/seirs.js line 522. -/
def r_to_s (omega s e i r : ℚ) : ℚ := omega * r

/-- s_death closure, src/seirs.js line 523. -/
def s_death (mu s e i r : ℚ) : ℚ := mu * s

/-- e_death closure, src/seirs.js line 524. -/
def e_death (mu s e i r : ℚ) : ℚ := mu * e

/-- i_death closure, src/seirs.js line 525. -/
def i_death (mu alpha s e i r : ℚ) : ℚ := (mu + alpha) * i

/-- r_death closure, src/seirs.js line 526. -/
def r_death (mu s e i r : ℚ) : ℚ := mu * r

/-- birth_susceptible closure, src/seirs.js line 527. -/
def birth_susceptible (mu p s e i r : ℚ) : ℚ := mu * (1 - p)

/-- birth_vaccinated closure, src/seirs.js line 528. -/
def birth_vaccinated (mu p s e i r : ℚ) : ℚ := mu * p

/-- rk4_step, src/seirs.js lines 531-572.  `x` is the state 4-tuple
`[s_curr, e_curr, i_curr, r_curr]`; `t` is the (unused) time argument. -/
def rk4_step (beta sigma gamma omega mu alpha p : ℚ)
    (x : ℚ × ℚ × ℚ × ℚ) (t h : ℚ) : ℚ × ℚ × ℚ × ℚ :=
  let s_curr := x.1
  let e_curr := x.2.1
  let i_curr := x.2.2.1
  let r_curr := x.2.2.2
  let k1_s := -s_to_e beta s_curr e_curr i_curr r_curr
    + r_to_s omega s_curr e_curr i_curr r_curr
    - s_death mu s_curr e_curr i_curr r_curr
    + birth_susceptible mu p s_curr e_curr i_curr r_curr
  let k1_e := s_to_e beta s_curr e_curr i_curr r_curr
    - e_to_i sigma s_curr e_curr i_curr r_curr
    - e_death mu s_curr e_curr i_curr r_curr
  let k1_i := e_to_i sigma s_curr e_curr i_curr r_curr
    - i_to_r gamma s_curr e_curr i_curr r_curr
    - i_death mu alpha s_curr e_curr i_curr r_curr
  let k1_r := i_to_r gamma s_curr e_curr i_curr r_curr
    - r_to_s omega s_curr e_curr i_curr r_curr
    - r_death mu s_curr e_curr i_curr r_curr
    + birth_vaccinated mu p s_curr e_curr i_curr r_curr
  let s2 := s_curr + 0.5 * h * k1_s
  let e2 := e_curr + 0.5 * h * k1_e
  let i2 := i_curr + 0.5 * h * k1_i
  let r2 := r_curr + 0.5 * h * k1_r
  let k2_s := -s_to_e beta s2 e2 i2 r2 + r_to_s omega s2 e2 i2 r2
    - s_death mu s2 e2 i2 r2 + birth_susceptible mu p s2 e2 i2 r2
  let k2_e := s_to_e beta s2 e2 i2 r2 - e_to_i sigma s2 e2 i2 r2
    - e_death mu s2 e2 i2 r2
  let k2_i := e_to_i sigma s2 e2 i2 r2 - i_to_r gamma s2 e2 i2 r2
    - i_death mu alpha s2 e2 i2 r2
  let k2_r := i_to_r gamma s2 e2 i2 r2 - r_to_s omega s2 e2 i2 r2
    - r_death mu s2 e2 i2 r2 + birth_vaccinated mu p s2 e2 i2 r2
  let s3 := s_curr + 0.5 * h * k2_s
  let e3 := e_curr + 0.5 * h * k2_e
  let i3 := i_curr + 0.5 * h * k2_i
  let r3 := r_curr + 0.5 * h * k2_r
  let k3_s := -s_to_e beta s3 e3 i3 r3 + r_to_s omega s3 e3 i3 r3
    - s_death mu s3 e3 i3 r3 + birth_susceptible mu p s3 e3 i3 r3
  let k3_e := s_to_e beta s3 e3 i3 r3 - e_to_i sigma s3 e3 i3 r3
    - e_death mu s3 e3 i3 r3
  let k3_i := e_to_i sigma s3 e3 i3 r3 - i_to_r gamma s3 e3 i3 r3
    - i_death mu alpha s3 e3 i3 r3
  let k3_r := i_to_r gamma s3 e3 i3 r3 - r_to_s omega s3 e3 i3 r3
    - r_death mu s3 e3 i3 r3 + birth_vaccinated mu p s3 e3 i3 r3
  let s4 := s_curr + h * k3_s
  let e4 := e_curr + h * k3_e
  let i4 := i_curr + h * k3_i
  let r4 := r_curr + h * k3_r
  let k4_s := -s_to_e beta s4 e4 i4 r4 + r_to_s omega s4 e4 i4 r4
    - s_death mu s4 e4 i4 r4 + birth_susceptible mu p s4 e4 i4 r4
  let k4_e := s_to_e beta s4 e4 i4 r4 - e_to_i sigma s4 e4 i4 r4
    - e_death mu s4 e4 i4 r4
  let k4_i := e_to_i sigma s4 e4 i4 r4 - i_to_r gamma s4 e4 i4 r4
    - i_death mu alpha s4 e4 i4 r4
  let k4_r := i_to_r gamma s4 e4 i4 r4 - r_to_s omega s4 e4 i4 r4
    - r_death mu s4 e4 i4 r4 + birth_vaccinated mu p s4 e4 i4 r4
  (s_curr + (h / 6) * (k1_s + 2 * k2_s + 2 * k3_s + k4_s),
   e_curr + (h / 6) * (k1_e + 2 * k2_e + 2 * k3_e + k4_e),
   i_curr + (h / 6) * (k1_i + 2 * k2_i + 2 * k3_i + k4_i),
   r_curr + (h / 6) * (k1_r + 2 * k2_r + 2 * k3_r + k4_r))

/-- The stored arrays of the inline copy's integration loop,
src/seirs.js lines 575-583: `stateAt ... t` is `[s[t], e[t], i[t], r[t]]`.
Each step calls `rk4_step` with `t = ix` and `h = 1.0` and clamps every
component with `Math.max(0, Math.min(1, ·))`. -/
def stateAt (beta sigma gamma omega mu alpha p : ℚ)
    (init : ℚ × ℚ × ℚ × ℚ) : ℕ → ℚ × ℚ × ℚ × ℚ
  | 0 => init
  | t + 1 =>
    let nw := rk4_step beta sigma gamma omega mu alpha p
      (stateAt beta sigma gamma omega mu alpha p init t) (t : ℚ) 1
    (max 0 (min 1 nw.1), max 0 (min 1 nw.2.1),
     max 0 (min 1 nw.2.2.1), max 0 (min 1 nw.2.2.2))

/-- The computation performed by the inline solve after validation,
src/seirs.js lines 498-608: derived parameters, initial conditions, the
RK4 loop, the output lists, and the `data_max` value (computed by the
output loop at lines 600-603 and then overwritten with `scale_by` at
line 607 before use; the overwrite is modelled by let-shadowing). -/
def solveCore (S0 R0 latent_period infectious_period : ℚ) (n : ℕ)
    (death_onset immunity_duration life_expectancy vaccination_rate : ℚ) :
    Seirs.SolveOutput :=
  let alpha := if 0 < death_onset then 1 / death_onset else 0
  let gamma := 1 / infectious_period
  let omega := 1 / (365 * immunity_duration)
  let mu := 1 / (365 * life_expectancy)
  let sigma := 1 / latent_period
  let p := vaccination_rate
  let beta := R0 * (gamma + mu + alpha) * (sigma + mu) / sigma
  let init : ℚ × ℚ × ℚ × ℚ := (S0 - p, 1 - S0, 0, p)
  let traj := stateAt beta sigma gamma omega mu alpha p init
  let scale_by : ℚ := 100
  let data_S := (List.range (n + 1)).map fun ix =>
    Seirs.PlotPoint.mk ix (scale_by * (traj ix).1)
  let data_E := (List.range (n + 1)).map fun ix =>
    Seirs.PlotPoint.mk ix (scale_by * (traj ix).2.1)
  let data_I := (List.range (n + 1)).map fun ix =>
    Seirs.PlotPoint.mk ix (scale_by * (traj ix).2.2.1)
  let data_R := (List.range (n + 1)).map fun ix =>
    Seirs.PlotPoint.mk ix (scale_by * (traj ix).2.2.2)
  let data_max : ℚ := (List.range (n + 1)).foldl (fun acc ix =>
    let acc := if acc < scale_by * (traj ix).1 then scale_by * (traj ix).1 else acc
    let acc := if acc < scale_by * (traj ix).2.1 then scale_by * (traj ix).2.1 else acc
    let acc := if acc < scale_by * (traj ix).2.2.1 then scale_by * (traj ix).2.2.1 else acc
    if acc < scale_by * (traj ix).2.2.2 then scale_by * (traj ix).2.2.2 else acc) 0
  let data_max := scale_by
  ⟨data_S, data_E, data_I, data_R, data_max⟩

/-- The inline solve, src/seirs.js lines 485-609, validation included.
Its death_onset error message differs from the class-based copy
("must be positive" at line 496, though the check is `< 0`). -/
def solve (S0 R0 latent_period infectious_period : ℚ) (n : ℕ)
    (death_onset immunity_duration life_expectancy vaccination_rate : ℚ) :
    Except String Seirs.SolveOutput :=
  if n ≤ 0 then .error "Number of time steps must be positive"
  else if S0 < 0 ∨ 1 < S0 then .error "Initial susceptibility must be between 0 and 1"
  else if R0 ≤ 0 then .error "R0 must be positive"
  else if infectious_period ≤ 0 then .error "Infectious period must be positive"
  else if latent_period ≤ 0 then .error "Latent period must be positive"
  else if immunity_duration ≤ 0 then .error "Immunity duration must be positive"
  else if life_expectancy ≤ 0 then .error "Life expectancy must be positive"
  else if death_onset < 0 then .error "Death onset must be positive"
  else if vaccination_rate < 0 ∨ 1 < vaccination_rate then .error "Vaccination rate must be between 0 and 1"
  else .ok (solveCore S0 R0 latent_period infectious_period n
    death_onset immunity_duration life_expectancy vaccination_rate)

end Inline

namespace Part000

/-!
The third copy of the solver lives in src/unnamed/part_000 (lines 255-321
for `solve` itself).  Its classes SEIRParameters, SEIRTransitions,
RK4Integrator, the clamp and formatDataForPlot utilities, the CONSTANTS
record, and the body of `solve` are line-for-line the same computation as
the class-based copy in src/seirs.js, so the embedding reuses the same
shapes, redeclared from that file's text.
-/

/-- SEIRParameters constructor of src/unnamed/part_000 (lines 94-116). -/
def mkSEIRParameters (R0 infectious_period latent_period death_onset
    immunity_duration life_expectancy : ℚ) : Seirs.SEIRParameters :=
  let alpha := if 0 < death_onset then 1 / death_onset else 0
  let gamma := 1 / infectious_period
  let omega := 1 / (365 * immunity_duration)
  let mu := 1 / (365 * life_expectancy)
  let sigma := 1 / latent_period
  ⟨alpha, gamma, omega, mu, sigma,
    R0 * (gamma + mu + alpha) * (sigma + mu) / sigma⟩

/-- SEIRTransitions.calculateDerivatives of src/unnamed/part_000
(lines 139-164). -/
def calculateDerivatives (params : Seirs.SEIRParameters)
    (vaccination_rate : ℚ) (s e i r : ℚ) : Seirs.Derivatives :=
  let p := vaccination_rate
  let s_to_e := params.beta * s * i
  let e_to_i := params.sigma * e
  let i_to_r := params.gamma * i
  let r_to_s := params.omega * r
  ⟨-s_to_e + r_to_s - params.mu * s + params.mu * (1 - p),
   s_to_e - e_to_i - params.mu * e,
   e_to_i - i_to_r - (params.mu + params.alpha) * i,
   i_to_r - r_to_s - params.mu * r + params.mu * p⟩

/-- RK4Integrator.step of src/unnamed/part_000 (lines 191-235). -/
def step (params : Seirs.SEIRParameters) (vaccination_rate : ℚ)
    (state : Seirs.CompartmentState) (h : ℚ) : Seirs.CompartmentState :=
  let s := state.s
  let e := state.e
  let i := state.i
  let r := state.r
  let k1 := calculateDerivatives params vaccination_rate s e i r
  let k2 := calculateDerivatives params vaccination_rate
    (s + 0.5 * h * k1.ds) (e + 0.5 * h * k1.de)
    (i + 0.5 * h * k1.di) (r + 0.5 * h * k1.dr)
  let k3 := calculateDerivatives params vaccination_rate
    (s + 0.5 * h * k2.ds) (e + 0.5 * h * k2.de)
    (i + 0.5 * h * k2.di) (r + 0.5 * h * k2.dr)
  let k4 := calculateDerivatives params vaccination_rate
    (s + h * k3.ds) (e + h * k3.de) (i + h * k3.di) (r + h * k3.dr)
  let weightedSum := fun a b c d => (h / 6) * (a + 2 * b + 2 * c + d)
  ⟨s + weightedSum k1.ds k2.ds k3.ds k4.ds,
   e + weightedSum k1.de k2.de k3.de k4.de,
   i + weightedSum k1.di k2.di k3.di k4.di,
   r + weightedSum k1.dr k2.dr k3.dr k4.dr⟩

/-- The stored state arrays of the integration loop of
src/unnamed/part_000 `solve` (timeStep = 1.0, clamped stores). -/
def stateAt (params : Seirs.SEIRParameters) (vaccination_rate : ℚ)
    (init : Seirs.CompartmentState) : ℕ → Seirs.CompartmentState
  | 0 => init
  | t + 1 =>
    let nw := step params vaccination_rate
      (stateAt params vaccination_rate init t) 1
    ⟨max 0 (min 1 nw.s), max 0 (min 1 nw.e),
     max 0 (min 1 nw.i), max 0 (min 1 nw.r)⟩

/-- The computation of src/unnamed/part_000 `solve` after validation. -/
def solveCore (S0 R0 latent_period infectious_period : ℚ) (n : ℕ)
    (death_onset immunity_duration life_expectancy vaccination_rate : ℚ) :
    Seirs.SolveOutput :=
  let init : Seirs.CompartmentState :=
    ⟨S0 - vaccination_rate, 1 - S0, 0, vaccination_rate⟩
  let params := mkSEIRParameters R0 infectious_period latent_period
    death_onset immunity_duration life_expectancy
  let traj := stateAt params vaccination_rate init
  ⟨((List.range (n + 1)).map fun t => (traj t).s).enum.map
      (fun q => ⟨q.1, 100 * q.2⟩),
   ((List.range (n + 1)).map fun t => (traj t).e).enum.map
      (fun q => ⟨q.1, 100 * q.2⟩),
   ((List.range (n + 1)).map fun t => (traj t).i).enum.map
      (fun q => ⟨q.1, 100 * q.2⟩),
   ((List.range (n + 1)).map fun t => (traj t).r).enum.map
      (fun q => ⟨q.1, 100 * q.2⟩),
   100⟩

/-- solve of src/unnamed/part_000 (lines 255-321), validation included.
The validation calls and messages match the class-based copy. -/
def solve (S0 R0 latent_period infectious_period : ℚ) (n : ℕ)
    (death_onset immunity_duration life_expectancy vaccination_rate : ℚ) :
    Except String Seirs.SolveOutput :=
  if n ≤ 0 then .error "Number of time steps must be positive"
  else if S0 < 0 ∨ 1 < S0 then .error "Initial susceptibility must be between 0 and 1"
  else if R0 ≤ 0 then .error "R0 must be positive"
  else if infectious_period ≤ 0 then .error "Infectious period must be positive"
  else if latent_period ≤ 0 then .error "Latent period must be positive"
  else if immunity_duration ≤ 0 then .error "Immunity duration must be positive"
  else if life_expectancy ≤ 0 then .error "Life expectancy must be positive"
  else if death_onset < 0 then .error "Death onset must be non-negative"
  else if vaccination_rate < 0 ∨ 1 < vaccination_rate then .error "Vaccination rate must be between 0 and 1"
  else .ok (solveCore S0 R0 latent_period infectious_period n
    death_onset immunity_duration life_expectancy vaccination_rate)

end Part000

namespace Seirs

/-- The clamp to [0, 1] always lands in [0, 1]. -/
theorem clamp01_mem (v : ℚ) : 0 ≤ clamp v 0 1 ∧ clamp v 0 1 ≤ 1 :=
  ⟨le_max_left 0 _, max_le (by norm_num) (min_le_left 1 v)⟩

/-- Index lookup in a formatted series built from `List.range k`. -/
theorem formatDataForPlot_range_getElem (f : ℕ → ℚ) (scale : ℚ) (k t : ℕ)
    (ht : t < k) :
    (formatDataForPlot ((List.range k).map f) scale)[t]? =
      some ⟨t, scale * f t⟩ := by
  unfold formatDataForPlot
  rw [List.getElem?_map, List.getElem?_enum, List.getElem?_map,
    List.getElem?_range ht]
  rfl

/-- Length of a formatted series built from `List.range k`. -/
theorem formatDataForPlot_range_length (f : ℕ → ℚ) (scale : ℚ) (k : ℕ) :
    (formatDataForPlot ((List.range k).map f) scale).length = k := by
  simp [formatDataForPlot]

/-- The x components of a formatted series are the day indices in order. -/
theorem formatDataForPlot_range_x (f : ℕ → ℚ) (scale : ℚ) (k : ℕ) :
    (formatDataForPlot ((List.range k).map f) scale).map PlotPoint.x =
      List.range k := by
  unfold formatDataForPlot
  rw [List.map_map]
  have hc : (PlotPoint.x ∘ fun q : ℕ × ℚ => (⟨q.1, scale * q.2⟩ : PlotPoint)) =
      Prod.fst := rfl
  rw [hc, List.enum_map_fst, List.length_map, List.length_range]

/-- Every member of a formatted series is an indexed, scaled value. -/
theorem mem_formatDataForPlot_range (f : ℕ → ℚ) (scale : ℚ) (k : ℕ)
    (pt : PlotPoint)
    (hpt : pt ∈ formatDataForPlot ((List.range k).map f) scale) :
    ∃ t, t < k ∧ pt = ⟨t, scale * f t⟩ := by
  rw [List.mem_iff_getElem?] at hpt
  obtain ⟨t, hget⟩ := hpt
  have ht : t < k := by
    by_contra hge
    rw [List.getElem?_eq_none (by
      rw [formatDataForPlot_range_length]; omega)] at hget
    exact Option.noConfusion hget
  refine ⟨t, ht, ?_⟩
  rw [formatDataForPlot_range_getElem f scale k t ht] at hget
  exact (Option.some.injEq _ _ ▸ hget).symm

/-- The head of a formatted series is the day-0 point. -/
theorem formatDataForPlot_range_head (f : ℕ → ℚ) (scale : ℚ) (n : ℕ) :
    (formatDataForPlot ((List.range (n + 1)).map f) scale).head? =
      some ⟨0, scale * f 0⟩ := by
  rw [List.range_succ_eq_map, List.map_cons]
  rfl

/-- A formatted series over `List.range k` written as a direct map. -/
theorem formatDataForPlot_range_eq_map (f : ℕ → ℚ) (scale : ℚ) (k : ℕ) :
    formatDataForPlot ((List.range k).map f) scale =
      (List.range k).map fun ix => ⟨ix, scale * f ix⟩ := by
  apply List.ext_getElem?
  intro t
  rw [List.getElem?_map]
  by_cases ht : t < k
  · rw [formatDataForPlot_range_getElem f scale k t ht,
      List.getElem?_range ht]
    rfl
  · rw [List.getElem?_eq_none (by rw [formatDataForPlot_range_length]; omega),
      List.getElem?_eq_none (by rw [List.length_range]; omega)]
    rfl

/-- C3: for every rate-constant record, vaccination rate p, and state
(s, e, i, r), the computed derivatives equal exactly ds = −β·s·i + ω·r −
μ·s + μ·(1−p), de = β·s·i − σ·e − μ·e, di = σ·e − γ·i − (μ+α)·i,
dr = γ·i − ω·r − μ·r + μ·p, where the force of infection is β·s·i,
progression is σ·e, recovery is γ·i, and waning is ω·r. -/
theorem derivatives_spec (params : SEIRParameters) (p s e i r : ℚ) :
    (calculateDerivatives params p s e i r).ds =
      -(params.beta * s * i) + params.omega * r - params.mu * s +
        params.mu * (1 - p) ∧
    (calculateDerivatives params p s e i r).de =
      params.beta * s * i - params.sigma * e - params.mu * e ∧
    (calculateDerivatives params p s e i r).di =
      params.sigma * e - params.gamma * i -
        (params.mu + params.alpha) * i ∧
    (calculateDerivatives params p s e i r).dr =
      params.gamma * i - params.omega * r - params.mu * r +
        params.mu * p :=
  ⟨rfl, rfl, rfl, rfl⟩

/-- C2: for every input that passes validation, the derived rate constants
satisfy α = 1/death_onset when death_onset > 0 and α = 0 when
death_onset = 0, γ = 1/infectious_period, ω = 1/(365 × immunity_duration),
μ = 1/(365 × life_expectancy), σ = 1/latent_period, and
β = R0 × (γ + μ + α) × (σ + μ) / σ. -/
theorem rate_constants_spec (S0 R0 latent_period infectious_period : ℚ)
    (n : ℕ)
    (death_onset immunity_duration life_expectancy vaccination_rate : ℚ)
    (hv : validParams S0 R0 latent_period infectious_period n death_onset
      immunity_duration life_expectancy vaccination_rate)
    (P : SEIRParameters)
    (hP : P = mkSEIRParameters R0 infectious_period latent_period
      death_onset immunity_duration life_expectancy) :
    (0 < death_onset → P.alpha = 1 / death_onset) ∧
    (death_onset = 0 → P.alpha = 0) ∧
    P.gamma = 1 / infectious_period ∧
    P.omega = 1 / (365 * immunity_duration) ∧
    P.mu = 1 / (365 * life_expectancy) ∧
    P.sigma = 1 / latent_period ∧
    P.beta = R0 * (P.gamma + P.mu + P.alpha) * (P.sigma + P.mu) / P.sigma := by
  subst hP
  refine ⟨?_, ?_, rfl, rfl, rfl, rfl, rfl⟩
  · intro hpos
    simp [mkSEIRParameters, if_pos hpos]
  · intro hzero
    simp [mkSEIRParameters, hzero]

/-- Witness for C2 at a concrete validated input. -/
theorem rate_constants_spec_witness :
    (mkSEIRParameters 3 14 7 100 1 76).alpha = 1 / 100 ∧
    (mkSEIRParameters 3 14 7 100 1 76).gamma = 1 / 14 :=
  have h := rate_constants_spec (99/100) 3 7 14 10 100 1 76 (1/2)
    (by refine ⟨?_, ?_, ?_, ?_, ?_, ?_, ?_, ?_, ?_, ?_, ?_⟩ <;> norm_num)
    (mkSEIRParameters 3 14 7 100 1 76) rfl
  ⟨h.1 (by norm_num), h.2.2.1⟩

/-- C4: RK4Integrator.step returns state + (h/6)·(k1 + 2·k2 + 2·k3 + k4)
componentwise, with k1 = derivatives(state), k2 = derivatives(state +
0.5·h·k1), k3 = derivatives(state + 0.5·h·k2), k4 = derivatives(state +
h·k3), for every state and every positive step size h; and the solve loop
advances the stored trajectory with step size h = 1.0 at every call. -/
theorem rk4_step_spec (params : SEIRParameters) (p : ℚ)
    (st : CompartmentState) (h : ℚ) (hpos : 0 < h) :
    (step params p st h =
      let k1 := calculateDerivatives params p st.s st.e st.i st.r
      let k2 := calculateDerivatives params p (st.s + 1/2 * h * k1.ds)
        (st.e + 1/2 * h * k1.de) (st.i + 1/2 * h * k1.di)
        (st.r + 1/2 * h * k1.dr)
      let k3 := calculateDerivatives params p (st.s + 1/2 * h * k2.ds)
        (st.e + 1/2 * h * k2.de) (st.i + 1/2 * h * k2.di)
        (st.r + 1/2 * h * k2.dr)
      let k4 := calculateDerivatives params p (st.s + h * k3.ds)
        (st.e + h * k3.de) (st.i + h * k3.di) (st.r + h * k3.dr)
      ⟨st.s + h / 6 * (k1.ds + 2 * k2.ds + 2 * k3.ds + k4.ds),
       st.e + h / 6 * (k1.de + 2 * k2.de + 2 * k3.de + k4.de),
       st.i + h / 6 * (k1.di + 2 * k2.di + 2 * k3.di + k4.di),
       st.r + h / 6 * (k1.dr + 2 * k2.dr + 2 * k3.dr + k4.dr)⟩) ∧
    ∀ (init : CompartmentState) (t : ℕ),
      stateAt params p init (t + 1) =
        clampState (step params p (stateAt params p init t) 1) := by
  constructor
  · show step params p st h = _
    norm_num [step, HALF_STEP, WEIGHT_MIDDLE, WEIGHT_DIVISOR]
  · intro init t
    rfl

/-- Witness for C4 at a concrete state and step size. -/
theorem rk4_step_spec_witness :
    stateAt (mkSEIRParameters 3 14 7 100 1 76) (1/2)
        ⟨49/100, 1/100, 0, 1/2⟩ 1 =
      clampState (step (mkSEIRParameters 3 14 7 100 1 76) (1/2)
        (stateAt (mkSEIRParameters 3 14 7 100 1 76) (1/2)
          ⟨49/100, 1/100, 0, 1/2⟩ 0) 1) :=
  (rk4_step_spec (mkSEIRParameters 3 14 7 100 1 76) (1/2)
    ⟨49/100, 1/100, 0, 1/2⟩ 1 (by norm_num)).2 ⟨49/100, 1/100, 0, 1/2⟩ 0

end Seirs

namespace Seirs

/-- C5: for every input that passes validation, the state stored at day 0
is exactly s₀ = S0 − vaccination_rate, e₀ = 1 − S0, i₀ = 0,
r₀ = vaccination_rate, with no clamping or guard; s₀ is negative whenever
vaccination_rate > S0, and day 1 is computed by applying the RK4 step to
that unclamped day-0 state. -/
theorem initial_state_spec (S0 R0 latent_period infectious_period : ℚ)
    (n : ℕ)
    (death_onset immunity_duration life_expectancy vaccination_rate : ℚ)
    (hv : validParams S0 R0 latent_period infectious_period n death_onset
      immunity_duration life_expectancy vaccination_rate)
    (P : SEIRParameters)
    (hP : P = mkSEIRParameters R0 infectious_period latent_period
      death_onset immunity_duration life_expectancy)
    (init : CompartmentState)
    (hinit : init = ⟨S0 - vaccination_rate, 1 - S0, 0, vaccination_rate⟩) :
    stateAt P vaccination_rate init 0 =
      ⟨S0 - vaccination_rate, 1 - S0, 0, vaccination_rate⟩ ∧
    (S0 < vaccination_rate → (stateAt P vaccination_rate init 0).s < 0) ∧
    stateAt P vaccination_rate init 1 =
      clampState (step P vaccination_rate
        ⟨S0 - vaccination_rate, 1 - S0, 0, vaccination_rate⟩ 1) ∧
    (solveCore S0 R0 latent_period infectious_period n death_onset
        immunity_duration life_expectancy vaccination_rate).s.head? =
      some ⟨0, 100 * (S0 - vaccination_rate)⟩ ∧
    (solveCore S0 R0 latent_period infectious_period n death_onset
        immunity_duration life_expectancy vaccination_rate).e.head? =
      some ⟨0, 100 * (1 - S0)⟩ ∧
    (solveCore S0 R0 latent_period infectious_period n death_onset
        immunity_duration life_expectancy vaccination_rate).i.head? =
      some ⟨0, 0⟩ ∧
    (solveCore S0 R0 latent_period infectious_period n death_onset
        immunity_duration life_expectancy vaccination_rate).r.head? =
      some ⟨0, 100 * vaccination_rate⟩ := by
  subst hP hinit
  refine ⟨rfl, ?_, rfl, ?_, ?_, ?_, ?_⟩
  · intro hlt
    show S0 - vaccination_rate < 0
    linarith
  · simp only [solveCore]
    rw [formatDataForPlot_range_head]
    rfl
  · simp only [solveCore]
    rw [formatDataForPlot_range_head]
    rfl
  · simp only [solveCore]
    rw [formatDataForPlot_range_head]
    show some (PlotPoint.mk 0 (PERCENTAGE_SCALE * (0 : ℚ))) =
      some (PlotPoint.mk 0 0)
    norm_num
  · simp only [solveCore]
    rw [formatDataForPlot_range_head]
    rfl

/-- Witness for C5 at a concrete validated input with
vaccination_rate > S0: the stored day-0 susceptible value is negative. -/
theorem initial_state_spec_witness :
    (stateAt (mkSEIRParameters 3 14 7 100 1 76) 1 ⟨0 - 1, 1 - 0, 0, 1⟩ 0).s
      < 0 :=
  (initial_state_spec 0 3 7 14 1 100 1 76 1
    (by refine ⟨?_, ?_, ?_, ?_, ?_, ?_, ?_, ?_, ?_, ?_, ?_⟩ <;> norm_num)
    (mkSEIRParameters 3 14 7 100 1 76) rfl
    ⟨0 - 1, 1 - 0, 0, 1⟩ rfl).2.1 (by norm_num)

/-- C6: solve fails with a validation error exactly when S0 or
vaccination_rate is outside [0,1], one of R0, infectious_period,
latent_period, immunity_duration, life_expectancy, n is ≤ 0, or
death_onset < 0; the checks happen before any computation (an error
result carries no partial data), and a fully in-bounds input always
yields the normal solveCore result. -/
theorem validation_spec (S0 R0 latent_period infectious_period : ℚ)
    (n : ℕ)
    (death_onset immunity_duration life_expectancy vaccination_rate : ℚ) :
    ((solve S0 R0 latent_period infectious_period n death_onset
        immunity_duration life_expectancy vaccination_rate).isOk = true ↔
      validParams S0 R0 latent_period infectious_period n death_onset
        immunity_duration life_expectancy vaccination_rate) ∧
    (validParams S0 R0 latent_period infectious_period n death_onset
        immunity_duration life_expectancy vaccination_rate →
      solve S0 R0 latent_period infectious_period n death_onset
          immunity_duration life_expectancy vaccination_rate =
        Except.ok (solveCore S0 R0 latent_period infectious_period n
          death_onset immunity_duration life_expectancy vaccination_rate)) := by
  have backward : validParams S0 R0 latent_period infectious_period n
      death_onset immunity_duration life_expectancy vaccination_rate →
      solve S0 R0 latent_period infectious_period n death_onset
          immunity_duration life_expectancy vaccination_rate =
        Except.ok (solveCore S0 R0 latent_period infectious_period n
          death_onset immunity_duration life_expectancy vaccination_rate) := by
    rintro ⟨hn, hS0l, hS0u, hR0, hip, hlp, hid, hle, hdo, hvl, hvu⟩
    unfold solve
    rw [if_neg (by omega),
      if_neg (by rw [not_or, not_lt, not_lt]; exact ⟨hS0l, hS0u⟩),
      if_neg (not_le.mpr hR0), if_neg (not_le.mpr hip),
      if_neg (not_le.mpr hlp), if_neg (not_le.mpr hid),
      if_neg (not_le.mpr hle), if_neg (not_lt.mpr hdo),
      if_neg (by rw [not_or, not_lt, not_lt]; exact ⟨hvl, hvu⟩)]
  have forward : (solve S0 R0 latent_period infectious_period n death_onset
      immunity_duration life_expectancy vaccination_rate).isOk = true →
      validParams S0 R0 latent_period infectious_period n death_onset
        immunity_duration life_expectancy vaccination_rate := by
    unfold solve
    split_ifs with h1 h2 h3 h4 h5 h6 h7 h8 h9 <;>
      intro hok
    · exact absurd hok (by simp [Except.isOk, Except.toBool])
    · exact absurd hok (by simp [Except.isOk, Except.toBool])
    · exact absurd hok (by simp [Except.isOk, Except.toBool])
    · exact absurd hok (by simp [Except.isOk, Except.toBool])
    · exact absurd hok (by simp [Except.isOk, Except.toBool])
    · exact absurd hok (by simp [Except.isOk, Except.toBool])
    · exact absurd hok (by simp [Except.isOk, Except.toBool])
    · exact absurd hok (by simp [Except.isOk, Except.toBool])
    · exact absurd hok (by simp [Except.isOk, Except.toBool])
    · rw [not_or, not_lt, not_lt] at h2 h9
      exact ⟨by omega, h2.1, h2.2, not_le.mp h3, not_le.mp h4, not_le.mp h5,
        not_le.mp h6, not_le.mp h7, not_lt.mp h8, h9.1, h9.2⟩
  exact ⟨⟨forward, fun hv => by rw [backward hv]; rfl⟩, backward⟩

/-- Witness for C6 at a concrete in-bounds input. -/
theorem validation_spec_witness :
    Seirs.solve (99/100) 3 7 14 5 100 1 76 (1/2) =
      Except.ok (Seirs.solveCore (99/100) 3 7 14 5 100 1 76 (1/2)) :=
  (validation_spec (99/100) 3 7 14 5 100 1 76 (1/2)).2
    (by refine ⟨?_, ?_, ?_, ?_, ?_, ?_, ?_, ?_, ?_, ?_, ?_⟩ <;> norm_num)

end Seirs

namespace Seirs

/-- C7: for every validated input with n > 0, solve's result consists of
four series of exactly n+1 points whose x components are the day indices
0..n in increasing order, whose y value at index t is 100 times the
stored proportion for day t, and whose ymax is the constant 100. -/
theorem output_shape_spec (S0 R0 latent_period infectious_period : ℚ)
    (n : ℕ)
    (death_onset immunity_duration life_expectancy vaccination_rate : ℚ)
    (hv : validParams S0 R0 latent_period infectious_period n death_onset
      immunity_duration life_expectancy vaccination_rate)
    (P : SEIRParameters)
    (hP : P = mkSEIRParameters R0 infectious_period latent_period
      death_onset immunity_duration life_expectancy)
    (init : CompartmentState)
    (hinit : init = ⟨S0 - vaccination_rate, 1 - S0, 0, vaccination_rate⟩)
    (out : SolveOutput)
    (hout : out = solveCore S0 R0 latent_period infectious_period n
      death_onset immunity_duration life_expectancy vaccination_rate) :
    (out.s.length = n + 1 ∧ out.e.length = n + 1 ∧ out.i.length = n + 1 ∧
      out.r.length = n + 1) ∧
    (out.s.map PlotPoint.x = List.range (n + 1) ∧
      out.e.map PlotPoint.x = List.range (n + 1) ∧
      out.i.map PlotPoint.x = List.range (n + 1) ∧
      out.r.map PlotPoint.x = List.range (n + 1)) ∧
    (∀ t, t ≤ n →
      out.s[t]? = some ⟨t, 100 * (stateAt P vaccination_rate init t).s⟩ ∧
      out.e[t]? = some ⟨t, 100 * (stateAt P vaccination_rate init t).e⟩ ∧
      out.i[t]? = some ⟨t, 100 * (stateAt P vaccination_rate init t).i⟩ ∧
      out.r[t]? = some ⟨t, 100 * (stateAt P vaccination_rate init t).r⟩) ∧
    out.ymax = 100 := by
  subst hP hinit hout
  simp only [solveCore]
  refine ⟨⟨?_, ?_, ?_, ?_⟩, ⟨?_, ?_, ?_, ?_⟩, ?_, rfl⟩
  · exact formatDataForPlot_range_length _ _ _
  · exact formatDataForPlot_range_length _ _ _
  · exact formatDataForPlot_range_length _ _ _
  · exact formatDataForPlot_range_length _ _ _
  · exact formatDataForPlot_range_x _ _ _
  · exact formatDataForPlot_range_x _ _ _
  · exact formatDataForPlot_range_x _ _ _
  · exact formatDataForPlot_range_x _ _ _
  · intro t ht
    have ht' : t < n + 1 := by omega
    exact ⟨formatDataForPlot_range_getElem _ _ _ t ht',
      formatDataForPlot_range_getElem _ _ _ t ht',
      formatDataForPlot_range_getElem _ _ _ t ht',
      formatDataForPlot_range_getElem _ _ _ t ht'⟩

/-- Witness for C7 at a concrete validated input. -/
theorem output_shape_spec_witness :
    (solveCore (99/100) 3 7 14 2 100 1 76 (1/2)).ymax = 100 :=
  (output_shape_spec (99/100) 3 7 14 2 100 1 76 (1/2)
    (by refine ⟨?_, ?_, ?_, ?_, ?_, ?_, ?_, ?_, ?_, ?_, ?_⟩ <;> norm_num)
    (mkSEIRParameters 3 14 7 100 1 76) rfl
    ⟨99/100 - 1/2, 1 - 99/100, 0, 1/2⟩ rfl
    (solveCore (99/100) 3 7 14 2 100 1 76 (1/2)) rfl).2.2.2

/-- C9: for every validated input and every day index t with 1 ≤ t ≤ n,
each stored compartment proportion at day t is the clamp of the raw RK4
output to [0, 1] and hence lies in [0, 1], so the returned y values at
indices 1..n lie in [0, 100]; day 0 is not produced by this clamping. -/
theorem clamped_tail_spec (S0 R0 latent_period infectious_period : ℚ)
    (n : ℕ)
    (death_onset immunity_duration life_expectancy vaccination_rate : ℚ)
    (hv : validParams S0 R0 latent_period infectious_period n death_onset
      immunity_duration life_expectancy vaccination_rate)
    (P : SEIRParameters)
    (hP : P = mkSEIRParameters R0 infectious_period latent_period
      death_onset immunity_duration life_expectancy)
    (init : CompartmentState)
    (hinit : init = ⟨S0 - vaccination_rate, 1 - S0, 0, vaccination_rate⟩)
    (out : SolveOutput)
    (hout : out = solveCore S0 R0 latent_period infectious_period n
      death_onset immunity_duration life_expectancy vaccination_rate) :
    ∀ t, 1 ≤ t → t ≤ n →
      stateAt P vaccination_rate init t =
        clampState (step P vaccination_rate
          (stateAt P vaccination_rate init (t - 1)) 1) ∧
      (0 ≤ (stateAt P vaccination_rate init t).s ∧
        (stateAt P vaccination_rate init t).s ≤ 1) ∧
      (0 ≤ (stateAt P vaccination_rate init t).e ∧
        (stateAt P vaccination_rate init t).e ≤ 1) ∧
      (0 ≤ (stateAt P vaccination_rate init t).i ∧
        (stateAt P vaccination_rate init t).i ≤ 1) ∧
      (0 ≤ (stateAt P vaccination_rate init t).r ∧
        (stateAt P vaccination_rate init t).r ≤ 1) ∧
      (out.s[t]? = some ⟨t, 100 * (stateAt P vaccination_rate init t).s⟩ ∧
        0 ≤ 100 * (stateAt P vaccination_rate init t).s ∧
        100 * (stateAt P vaccination_rate init t).s ≤ 100) ∧
      (out.e[t]? = some ⟨t, 100 * (stateAt P vaccination_rate init t).e⟩ ∧
        0 ≤ 100 * (stateAt P vaccination_rate init t).e ∧
        100 * (stateAt P vaccination_rate init t).e ≤ 100) ∧
      (out.i[t]? = some ⟨t, 100 * (stateAt P vaccination_rate init t).i⟩ ∧
        0 ≤ 100 * (stateAt P vaccination_rate init t).i ∧
        100 * (stateAt P vaccination_rate init t).i ≤ 100) ∧
      (out.r[t]? = some ⟨t, 100 * (stateAt P vaccination_rate init t).r⟩ ∧
        0 ≤ 100 * (stateAt P vaccination_rate init t).r ∧
        100 * (stateAt P vaccination_rate init t).r ≤ 100) := by
  subst hP hinit hout
  intro t h1 hn
  obtain ⟨k, rfl⟩ : ∃ k, t = k + 1 := ⟨t - 1, by omega⟩
  have ht' : k + 1 < n + 1 := by omega
  set P := mkSEIRParameters R0 infectious_period latent_period death_onset
    immunity_duration life_expectancy
  set init : CompartmentState :=
    ⟨S0 - vaccination_rate, 1 - S0, 0, vaccination_rate⟩
  have hs : 0 ≤ (stateAt P vaccination_rate init (k + 1)).s ∧
      (stateAt P vaccination_rate init (k + 1)).s ≤ 1 := clamp01_mem _
  have he : 0 ≤ (stateAt P vaccination_rate init (k + 1)).e ∧
      (stateAt P vaccination_rate init (k + 1)).e ≤ 1 := clamp01_mem _
  have hi : 0 ≤ (stateAt P vaccination_rate init (k + 1)).i ∧
      (stateAt P vaccination_rate init (k + 1)).i ≤ 1 := clamp01_mem _
  have hr : 0 ≤ (stateAt P vaccination_rate init (k + 1)).r ∧
      (stateAt P vaccination_rate init (k + 1)).r ≤ 1 := clamp01_mem _
  refine ⟨rfl, hs, he, hi, hr, ⟨?_, ?_, ?_⟩, ⟨?_, ?_, ?_⟩, ⟨?_, ?_, ?_⟩,
    ⟨?_, ?_, ?_⟩⟩
  · simp only [solveCore]
    exact formatDataForPlot_range_getElem _ _ _ _ ht'
  · linarith [hs.1]
  · linarith [hs.2]
  · simp only [solveCore]
    exact formatDataForPlot_range_getElem _ _ _ _ ht'
  · linarith [he.1]
  · linarith [he.2]
  · simp only [solveCore]
    exact formatDataForPlot_range_getElem _ _ _ _ ht'
  · linarith [hi.1]
  · linarith [hi.2]
  · simp only [solveCore]
    exact formatDataForPlot_range_getElem _ _ _ _ ht'
  · linarith [hr.1]
  · linarith [hr.2]

/-- Witness for C9 at a concrete validated input and day index 1. -/
theorem clamped_tail_spec_witness :
    0 ≤ (stateAt (mkSEIRParameters 3 14 7 100 1 76) (1/2)
      ⟨99/100 - 1/2, 1 - 99/100, 0, 1/2⟩ 1).s :=
  ((clamped_tail_spec (99/100) 3 7 14 2 100 1 76 (1/2)
    (by refine ⟨?_, ?_, ?_, ?_, ?_, ?_, ?_, ?_, ?_, ?_, ?_⟩ <;> norm_num)
    (mkSEIRParameters 3 14 7 100 1 76) rfl
    ⟨99/100 - 1/2, 1 - 99/100, 0, 1/2⟩ rfl
    (solveCore (99/100) 3 7 14 2 100 1 76 (1/2)) rfl) 1
    (by norm_num) (by norm_num)).2.1.1

end Seirs

namespace Seirs

/-- Once the day-0 state is componentwise inside [0, 1], every stored day
is: day 0 by assumption, and every later day because it is clamped. -/
theorem stateAt_mem01 (P : SEIRParameters) (vr : ℚ) (init : CompartmentState)
    (h0 : (0 ≤ init.s ∧ init.s ≤ 1) ∧ (0 ≤ init.e ∧ init.e ≤ 1) ∧
      (0 ≤ init.i ∧ init.i ≤ 1) ∧ (0 ≤ init.r ∧ init.r ≤ 1)) :
    ∀ t, (0 ≤ (stateAt P vr init t).s ∧ (stateAt P vr init t).s ≤ 1) ∧
      (0 ≤ (stateAt P vr init t).e ∧ (stateAt P vr init t).e ≤ 1) ∧
      (0 ≤ (stateAt P vr init t).i ∧ (stateAt P vr init t).i ≤ 1) ∧
      (0 ≤ (stateAt P vr init t).r ∧ (stateAt P vr init t).r ≤ 1) := by
  intro t
  cases t with
  | zero => exact h0
  | succ k => exact ⟨clamp01_mem _, clamp01_mem _, clamp01_mem _, clamp01_mem _⟩

/-- Counterexample to C1 as stated: the input S0 = 0, R0 = 3,
latent_period = 7, infectious_period = 14, n = 1, death_onset = 100,
immunity_duration = 1, life_expectancy = 76, vaccination_rate = 1 passes
validation, yet the day-0 point of the susceptible series has y = −100,
outside [0, 100]. -/
theorem series_range_counterexample :
    validParams 0 3 7 14 1 100 1 76 1 ∧
    (solveCore 0 3 7 14 1 100 1 76 1).s.head? = some ⟨0, -100⟩ ∧
    ¬ (0 ≤ (-100 : ℚ) ∧ (-100 : ℚ) ≤ 100) := by
  refine ⟨⟨?_, ?_, ?_, ?_, ?_, ?_, ?_, ?_, ?_, ?_, ?_⟩, ?_, by norm_num⟩
  · norm_num
  · norm_num
  · norm_num
  · norm_num
  · norm_num
  · norm_num
  · norm_num
  · norm_num
  · norm_num
  · norm_num
  · norm_num
  · simp only [solveCore]
    rw [formatDataForPlot_range_head]
    show some (PlotPoint.mk 0 (PERCENTAGE_SCALE * ((0 : ℚ) - 1))) =
      some (PlotPoint.mk 0 (-100))
    norm_num [PERCENTAGE_SCALE]

/-- C1 amended: for every input that passes validation AND has
vaccination_rate ≤ S0, every y value of each of the four returned series
lies in [0, 100].  (The restriction is forced: with vaccination_rate > S0
the stored day-0 susceptible value S0 − vaccination_rate is negative and
is returned unclamped, as the counterexample shows.) -/
theorem series_range_amended (S0 R0 latent_period infectious_period : ℚ)
    (n : ℕ)
    (death_onset immunity_duration life_expectancy vaccination_rate : ℚ)
    (hv : validParams S0 R0 latent_period infectious_period n death_onset
      immunity_duration life_expectancy vaccination_rate)
    (hple : vaccination_rate ≤ S0)
    (out : SolveOutput)
    (hout : out = solveCore S0 R0 latent_period infectious_period n
      death_onset immunity_duration life_expectancy vaccination_rate) :
    (∀ pt ∈ out.s, 0 ≤ pt.y ∧ pt.y ≤ 100) ∧
    (∀ pt ∈ out.e, 0 ≤ pt.y ∧ pt.y ≤ 100) ∧
    (∀ pt ∈ out.i, 0 ≤ pt.y ∧ pt.y ≤ 100) ∧
    (∀ pt ∈ out.r, 0 ≤ pt.y ∧ pt.y ≤ 100) := by
  subst hout
  obtain ⟨hn, hS0l, hS0u, hR0, hip, hlp, hid, hle, hdo, hvl, hvu⟩ := hv
  have h0 : (0 ≤ (S0 - vaccination_rate) ∧ (S0 - vaccination_rate) ≤ 1) ∧
      (0 ≤ (1 - S0) ∧ (1 - S0) ≤ 1) ∧
      (0 ≤ (0 : ℚ) ∧ (0 : ℚ) ≤ 1) ∧
      (0 ≤ vaccination_rate ∧ vaccination_rate ≤ 1) :=
    ⟨⟨by linarith, by linarith⟩, ⟨by linarith, by linarith⟩,
      ⟨le_refl 0, by norm_num⟩, ⟨hvl, hvu⟩⟩
  have hb := stateAt_mem01
    (mkSEIRParameters R0 infectious_period latent_period death_onset
      immunity_duration life_expectancy) vaccination_rate
    ⟨S0 - vaccination_rate, 1 - S0, 0, vaccination_rate⟩ h0
  refine ⟨?_, ?_, ?_, ?_⟩ <;> intro pt hpt <;> simp only [solveCore] at hpt
  · obtain ⟨t, ht, rfl⟩ := mem_formatDataForPlot_range _ _ _ _ hpt
    have hc := (hb t).1
    exact ⟨by norm_num [PERCENTAGE_SCALE]; linarith [hc.1],
      by norm_num [PERCENTAGE_SCALE]; linarith [hc.2]⟩
  · obtain ⟨t, ht, rfl⟩ := mem_formatDataForPlot_range _ _ _ _ hpt
    have hc := (hb t).2.1
    exact ⟨by norm_num [PERCENTAGE_SCALE]; linarith [hc.1],
      by norm_num [PERCENTAGE_SCALE]; linarith [hc.2]⟩
  · obtain ⟨t, ht, rfl⟩ := mem_formatDataForPlot_range _ _ _ _ hpt
    have hc := (hb t).2.2.1
    exact ⟨by norm_num [PERCENTAGE_SCALE]; linarith [hc.1],
      by norm_num [PERCENTAGE_SCALE]; linarith [hc.2]⟩
  · obtain ⟨t, ht, rfl⟩ := mem_formatDataForPlot_range _ _ _ _ hpt
    have hc := (hb t).2.2.2
    exact ⟨by norm_num [PERCENTAGE_SCALE]; linarith [hc.1],
      by norm_num [PERCENTAGE_SCALE]; linarith [hc.2]⟩

/-- Witness for the amended C1 at a concrete validated input with
vaccination_rate ≤ S0: the day-0 susceptible point (0, 49) of that run
lies in [0, 100]. -/
theorem series_range_amended_witness :
    0 ≤ (PlotPoint.mk 0 49).y ∧ (PlotPoint.mk 0 49).y ≤ 100 :=
  (series_range_amended (99/100) 3 7 14 1 100 1 76 (1/2)
    (by refine ⟨?_, ?_, ?_, ?_, ?_, ?_, ?_, ?_, ?_, ?_, ?_⟩ <;> norm_num)
    (by norm_num)
    (solveCore (99/100) 3 7 14 1 100 1 76 (1/2)) rfl).1
    (PlotPoint.mk 0 49)
    (by
      rw [List.mem_iff_getElem?]
      refine ⟨0, ?_⟩
      show (solveCore (99/100) 3 7 14 1 100 1 76 (1/2)).s[0]? = _
      simp only [solveCore]
      rw [formatDataForPlot_range_getElem _ _ _ 0 (by norm_num)]
      norm_num [stateAt, PERCENTAGE_SCALE])

end Seirs

namespace Seirs

/-- With e = 0 and i = 0 the exposed derivative vanishes. -/
theorem calculateDerivatives_de_no_seed (P : SEIRParameters) (p s r : ℚ) :
    (calculateDerivatives P p s 0 0 r).de = 0 := by
  simp [calculateDerivatives]

/-- With e = 0 and i = 0 the infectious derivative vanishes. -/
theorem calculateDerivatives_di_no_seed (P : SEIRParameters) (p s r : ℚ) :
    (calculateDerivatives P p s 0 0 r).di = 0 := by
  simp [calculateDerivatives]

/-- An RK4 step from a state with e = 0 and i = 0 keeps e = 0 and i = 0:
all four derivative samples have vanishing de and di, so the weighted sum
leaves both components unchanged. -/
theorem step_no_seed (P : SEIRParameters) (p s r h : ℚ) :
    (step P p ⟨s, 0, 0, r⟩ h).e = 0 ∧ (step P p ⟨s, 0, 0, r⟩ h).i = 0 := by
  constructor <;> simp [step, calculateDerivatives]

/-- A trajectory started with e = 0 and i = 0 keeps both at 0 forever
(clamping 0 returns 0). -/
theorem stateAt_no_seed (P : SEIRParameters) (p : ℚ)
    (init : CompartmentState) (h0e : init.e = 0) (h0i : init.i = 0) :
    ∀ t, (stateAt P p init t).e = 0 ∧ (stateAt P p init t).i = 0 := by
  intro t
  induction t with
  | zero => exact ⟨h0e, h0i⟩
  | succ k ih =>
    have hrep : stateAt P p init k =
        ⟨(stateAt P p init k).s, 0, 0, (stateAt P p init k).r⟩ := by
      rcases hst : stateAt P p init k with ⟨s', e', i', r'⟩
      rw [hst] at ih
      simp only at ih
      obtain ⟨ihe, ihi⟩ := ih
      subst ihe ihi
      rfl
    constructor
    · show clamp (step P p (stateAt P p init k) 1).e 0 1 = 0
      rw [hrep, (step_no_seed P p _ _ 1).1]
      norm_num [clamp]
    · show clamp (step P p (stateAt P p init k) 1).i 0 1 = 0
      rw [hrep, (step_no_seed P p _ _ 1).2]
      norm_num [clamp]

/-- C8: for every otherwise-valid input with S0 = 1 and
vaccination_rate = 0 (so e₀ = 0 and i₀ = 0), the exposed and infectious
compartments remain exactly 0 through every RK4 step, and the infectious
series returned by solve is 0 at every day index. -/
theorem no_seed_no_epidemic (R0 latent_period infectious_period : ℚ)
    (n : ℕ) (death_onset immunity_duration life_expectancy : ℚ)
    (hv : validParams 1 R0 latent_period infectious_period n death_onset
      immunity_duration life_expectancy 0)
    (P : SEIRParameters)
    (hP : P = mkSEIRParameters R0 infectious_period latent_period
      death_onset immunity_duration life_expectancy)
    (init : CompartmentState)
    (hinit : init = ⟨1 - 0, 1 - 1, 0, 0⟩)
    (out : SolveOutput)
    (hout : out = solveCore 1 R0 latent_period infectious_period n
      death_onset immunity_duration life_expectancy 0) :
    (∀ t, (stateAt P 0 init t).e = 0 ∧ (stateAt P 0 init t).i = 0) ∧
    (∀ pt ∈ out.i, pt.y = 0) := by
  subst hP hinit hout
  have hz := stateAt_no_seed
    (mkSEIRParameters R0 infectious_period latent_period death_onset
      immunity_duration life_expectancy) 0
    ⟨1 - 0, 1 - 1, 0, 0⟩ (by norm_num) rfl
  refine ⟨hz, ?_⟩
  intro pt hpt
  simp only [solveCore] at hpt
  obtain ⟨t, ht, rfl⟩ := mem_formatDataForPlot_range _ _ _ _ hpt
  show PERCENTAGE_SCALE * _ = 0
  rw [(hz t).2, mul_zero]

/-- Witness for C8 at a concrete otherwise-valid input. -/
theorem no_seed_no_epidemic_witness :
    (stateAt (mkSEIRParameters 3 14 7 100 1 76) 0 ⟨1 - 0, 1 - 1, 0, 0⟩ 2).i
      = 0 :=
  ((no_seed_no_epidemic 3 7 14 2 100 1 76
    (by refine ⟨?_, ?_, ?_, ?_, ?_, ?_, ?_, ?_, ?_, ?_, ?_⟩ <;> norm_num)
    (mkSEIRParameters 3 14 7 100 1 76) rfl
    ⟨1 - 0, 1 - 1, 0, 0⟩ rfl
    (solveCore 1 3 7 14 2 100 1 76 0) rfl).1 2).2

end Seirs

/-- The inline rk4_step computes, component for component, the same value
as the class-based RK4Integrator.step at the corresponding rate record. -/
theorem inline_rk4_step_eq (beta sigma gamma omega mu alpha p s e i r t h : ℚ) :
    Inline.rk4_step beta sigma gamma omega mu alpha p (s, e, i, r) t h =
    ((Seirs.step ⟨alpha, gamma, omega, mu, sigma, beta⟩ p ⟨s, e, i, r⟩ h).s,
     (Seirs.step ⟨alpha, gamma, omega, mu, sigma, beta⟩ p ⟨s, e, i, r⟩ h).e,
     (Seirs.step ⟨alpha, gamma, omega, mu, sigma, beta⟩ p ⟨s, e, i, r⟩ h).i,
     (Seirs.step ⟨alpha, gamma, omega, mu, sigma, beta⟩ p ⟨s, e, i, r⟩ h).r) :=
  rfl

/-- The inline integration loop stores the same trajectory as the
class-based one. -/
theorem inline_stateAt_eq (beta sigma gamma omega mu alpha p s0 e0 i0 r0 : ℚ)
    (t : ℕ) :
    Inline.stateAt beta sigma gamma omega mu alpha p (s0, e0, i0, r0) t =
    ((Seirs.stateAt ⟨alpha, gamma, omega, mu, sigma, beta⟩ p ⟨s0, e0, i0, r0⟩ t).s,
     (Seirs.stateAt ⟨alpha, gamma, omega, mu, sigma, beta⟩ p ⟨s0, e0, i0, r0⟩ t).e,
     (Seirs.stateAt ⟨alpha, gamma, omega, mu, sigma, beta⟩ p ⟨s0, e0, i0, r0⟩ t).i,
     (Seirs.stateAt ⟨alpha, gamma, omega, mu, sigma, beta⟩ p ⟨s0, e0, i0, r0⟩ t).r) := by
  induction t with
  | zero => rfl
  | succ k ih =>
    simp only [Inline.stateAt]
    rw [ih, inline_rk4_step_eq]
    rfl

/-- The post-validation computations of the inline and class-based copies
agree on every input. -/
theorem inline_solveCore_eq (S0 R0 latent_period infectious_period : ℚ)
    (n : ℕ)
    (death_onset immunity_duration life_expectancy vaccination_rate : ℚ) :
    Inline.solveCore S0 R0 latent_period infectious_period n death_onset
        immunity_duration life_expectancy vaccination_rate =
      Seirs.solveCore S0 R0 latent_period infectious_period n death_onset
        immunity_duration life_expectancy vaccination_rate := by
  simp only [Inline.solveCore, Seirs.solveCore, inline_stateAt_eq,
    Seirs.formatDataForPlot_range_eq_map]
  rfl

/-- The part_000 RK4 step agrees with the class-based one. -/
theorem part000_step_eq (P : Seirs.SEIRParameters) (p : ℚ)
    (st : Seirs.CompartmentState) (h : ℚ) :
    Part000.step P p st h = Seirs.step P p st h := rfl

/-- The part_000 integration loop stores the same trajectory as the
class-based one. -/
theorem part000_stateAt_eq (P : Seirs.SEIRParameters) (p : ℚ)
    (init : Seirs.CompartmentState) (t : ℕ) :
    Part000.stateAt P p init t = Seirs.stateAt P p init t := by
  induction t with
  | zero => rfl
  | succ k ih =>
    show (let nw := Part000.step P p (Part000.stateAt P p init k) 1
      (⟨max 0 (min 1 nw.s), max 0 (min 1 nw.e), max 0 (min 1 nw.i),
        max 0 (min 1 nw.r)⟩ : Seirs.CompartmentState)) = _
    rw [ih]
    rfl

/-- The post-validation computations of the part_000 and class-based
copies agree on every input. -/
theorem part000_solveCore_eq (S0 R0 latent_period infectious_period : ℚ)
    (n : ℕ)
    (death_onset immunity_duration life_expectancy vaccination_rate : ℚ) :
    Part000.solveCore S0 R0 latent_period infectious_period n death_onset
        immunity_duration life_expectancy vaccination_rate =
      Seirs.solveCore S0 R0 latent_period infectious_period n death_onset
        immunity_duration life_expectancy vaccination_rate := by
  simp only [Part000.solveCore, Seirs.solveCore, part000_stateAt_eq]
  rfl

/-- C10: on every input that passes validation, the three copies of the
solver (the class-based solve, the inline solve with rk4_step, and the
solve of src/unnamed/part_000) return identical outputs: the same four
series value for value and the same ymax. -/
theorem copies_agree (S0 R0 latent_period infectious_period : ℚ) (n : ℕ)
    (death_onset immunity_duration life_expectancy vaccination_rate : ℚ)
    (hv : Seirs.validParams S0 R0 latent_period infectious_period n
      death_onset immunity_duration life_expectancy vaccination_rate) :
    Seirs.solve S0 R0 latent_period infectious_period n death_onset
        immunity_duration life_expectancy vaccination_rate =
      Except.ok (Seirs.solveCore S0 R0 latent_period infectious_period n
        death_onset immunity_duration life_expectancy vaccination_rate) ∧
    Inline.solve S0 R0 latent_period infectious_period n death_onset
        immunity_duration life_expectancy vaccination_rate =
      Except.ok (Seirs.solveCore S0 R0 latent_period infectious_period n
        death_onset immunity_duration life_expectancy vaccination_rate) ∧
    Part000.solve S0 R0 latent_period infectious_period n death_onset
        immunity_duration life_expectancy vaccination_rate =
      Except.ok (Seirs.solveCore S0 R0 latent_period infectious_period n
        death_onset immunity_duration life_expectancy vaccination_rate) := by
  obtain ⟨hn, hS0l, hS0u, hR0, hip, hlp, hid, hle, hdo, hvl, hvu⟩ := hv
  refine ⟨?_, ?_, ?_⟩
  · unfold Seirs.solve
    rw [if_neg (by omega),
      if_neg (by rw [not_or, not_lt, not_lt]; exact ⟨hS0l, hS0u⟩),
      if_neg (not_le.mpr hR0), if_neg (not_le.mpr hip),
      if_neg (not_le.mpr hlp), if_neg (not_le.mpr hid),
      if_neg (not_le.mpr hle), if_neg (not_lt.mpr hdo),
      if_neg (by rw [not_or, not_lt, not_lt]; exact ⟨hvl, hvu⟩)]
  · unfold Inline.solve
    rw [if_neg (by omega),
      if_neg (by rw [not_or, not_lt, not_lt]; exact ⟨hS0l, hS0u⟩),
      if_neg (not_le.mpr hR0), if_neg (not_le.mpr hip),
      if_neg (not_le.mpr hlp), if_neg (not_le.mpr hid),
      if_neg (not_le.mpr hle), if_neg (not_lt.mpr hdo),
      if_neg (by rw [not_or, not_lt, not_lt]; exact ⟨hvl, hvu⟩),
      inline_solveCore_eq]
  · unfold Part000.solve
    rw [if_neg (by omega),
      if_neg (by rw [not_or, not_lt, not_lt]; exact ⟨hS0l, hS0u⟩),
      if_neg (not_le.mpr hR0), if_neg (not_le.mpr hip),
      if_neg (not_le.mpr hlp), if_neg (not_le.mpr hid),
      if_neg (not_le.mpr hle), if_neg (not_lt.mpr hdo),
      if_neg (by rw [not_or, not_lt, not_lt]; exact ⟨hvl, hvu⟩),
      part000_solveCore_eq]

/-- Witness for C10 at a concrete validated input. -/
theorem copies_agree_witness :
    Inline.solve (99/100) 3 7 14 1 100 1 76 (1/2) =
      Except.ok (Seirs.solveCore (99/100) 3 7 14 1 100 1 76 (1/2)) :=
  (copies_agree (99/100) 3 7 14 1 100 1 76 (1/2)
    (by refine ⟨?_, ?_, ?_, ?_, ?_, ?_, ?_, ?_, ?_, ?_, ?_⟩ <;> norm_num)).2.1
